import Mathlib

/-!
Shallow embedding of the qrpc server core (src/framewriter.go, src/conf.go):
the frame writer's buffer operations, the outbound write path
(serveconn.writeFrame), the reader task's pending-response routing
(serveconn.readFrames), server-initiated request-id allocation
(serveconn.writeFirstFrame) and connection close
(serveconn.Close / closeUntracked).

Machine bytes are modelled as Nat with explicit truncation mod 256
(Go's byte(v) conversion); uint64 / 24-bit command values are Nat with
the width constraints carried as hypotheses or explicit mod.  Buffers
([]byte) are List Nat.  Go maps keyed by uint64 are association lists
(a nil Go map reads like an empty map, and the code only reads/deletes
through lookups, so the nil/empty distinction is unobservable here).

Types that the two source files use but do not define (FrameFlag bit
assignments, ConnStreams / Stream, response slots, Server.untrack,
PoorManUUID, the net.Conn socket) are modelled from the spec; each such
definition's doc comment starts with "Modelled from the spec".
-/

namespace Qrpc

/-- Go byte(v) truncation of a Nat to one byte. -/
def toByte (v : Nat) : Nat := v % 256

/-- FrameFlag is a one-byte flag set (spec section 3). -/
abbrev FrameFlag := Nat

/-- Modelled from the spec: the NonBlock flag bit.  The spec names the five
recognized bits (NonBlock, EndStream, Rst, Push, FromServer) without fixing
numeric positions, so distinct single-bit positions are chosen here. -/
def NBFlag : FrameFlag := 1

/-- Modelled from the spec: the EndStream flag bit. -/
def StreamEndFlag : FrameFlag := 2

/-- Modelled from the spec: the Rst flag bit. -/
def StreamRstFlag : FrameFlag := 4

/-- Modelled from the spec: the Push flag bit. -/
def PushFlag : FrameFlag := 8

/-- Modelled from the spec: the FromServer flag bit. -/
def FromServerFlag : FrameFlag := 16

/-- Modelled from the spec: whether the Rst bit is set. -/
def FrameFlag.IsRst (f : FrameFlag) : Bool := f.testBit 2

/-- Modelled from the spec: whether the Push bit is set. -/
def FrameFlag.IsPush (f : FrameFlag) : Bool := f.testBit 3

/-- Modelled from the spec: whether the NonBlock bit is set. -/
def FrameFlag.IsNonBlock (f : FrameFlag) : Bool := f.testBit 0

/-- Modelled from the spec: whether the FromServer bit is set. -/
def FrameFlag.IsFromServer (f : FrameFlag) : Bool := f.testBit 4

/-- Modelled from the spec: whether the EndStream bit is set. -/
def FrameFlag.IsStreamEnd (f : FrameFlag) : Bool := f.testBit 1

/-- Modelled from the spec: ToEndStream sets the EndStream bit
(used by StreamEndWrite in src/framewriter.go). -/
def FrameFlag.ToEndStream (f : FrameFlag) : FrameFlag := f ||| StreamEndFlag

/-- Cmd is a 24-bit command code carried in a wider Go integer type. -/
abbrev Cmd := Nat

/-- defaultFrameWriter from src/framewriter.go: scratch buffer plus the
requestID/cmd/flags recorded by StartWrite (the fbw back-reference is
modelled by passing the writer to Serveconn.writeFrame explicitly). -/
structure DefaultFrameWriter where
  wbuf : List Nat
  requestID : Nat
  cmd : Cmd
  flags : FrameFlag
deriving Repr, DecidableEq

/-- StartWrite (src/framewriter.go:25): records requestID/cmd/flags and
resets the buffer to the 16-byte preamble: 4 zero length-placeholder bytes,
8 big-endian requestID bytes, the flag byte, 3 big-endian cmd bytes. -/
def StartWrite (dfw : DefaultFrameWriter) (requestID : Nat) (cmd : Cmd)
    (flags : FrameFlag) : DefaultFrameWriter :=
  { requestID := requestID, cmd := cmd, flags := flags,
    wbuf := [0, 0, 0, 0,
      toByte (requestID >>> 56), toByte (requestID >>> 48),
      toByte (requestID >>> 40), toByte (requestID >>> 32),
      toByte (requestID >>> 24), toByte (requestID >>> 16),
      toByte (requestID >>> 8), toByte requestID,
      toByte flags,
      toByte (cmd >>> 16), toByte (cmd >>> 8), toByte cmd] }

/-- WriteUint64 (src/framewriter.go:93): append 8 big-endian bytes. -/
def WriteUint64 (dfw : DefaultFrameWriter) (v : Nat) : DefaultFrameWriter :=
  { dfw with wbuf := dfw.wbuf ++
      [toByte (v >>> 56), toByte (v >>> 48), toByte (v >>> 40),
       toByte (v >>> 32), toByte (v >>> 24), toByte (v >>> 16),
       toByte (v >>> 8), toByte v] }

/-- WriteUint32 (src/framewriter.go:98): append 4 big-endian bytes. -/
def WriteUint32 (dfw : DefaultFrameWriter) (v : Nat) : DefaultFrameWriter :=
  { dfw with wbuf := dfw.wbuf ++
      [toByte (v >>> 24), toByte (v >>> 16), toByte (v >>> 8), toByte v] }

/-- WriteUint16 (src/framewriter.go:103): append 2 big-endian bytes. -/
def WriteUint16 (dfw : DefaultFrameWriter) (v : Nat) : DefaultFrameWriter :=
  { dfw with wbuf := dfw.wbuf ++ [toByte (v >>> 8), toByte v] }

/-- WriteUint8 (src/framewriter.go:108): append one byte. -/
def WriteUint8 (dfw : DefaultFrameWriter) (v : Nat) : DefaultFrameWriter :=
  { dfw with wbuf := dfw.wbuf ++ [toByte v] }

/-- WriteBytes (src/framewriter.go:113): append raw bytes (elements of v
are Go bytes, hence each < 256 at call sites). -/
def WriteBytes (dfw : DefaultFrameWriter) (v : List Nat) : DefaultFrameWriter :=
  { dfw with wbuf := dfw.wbuf ++ v }

/-- EndWrite's buffer effect (src/framewriter.go:67): overwrite bytes 0-3
with the big-endian length (len(wbuf) - 4) and byte 12 with the current
flags (the two discarded-result appends in the source write through the
shared backing array at exactly these indices).  The subsequent
fbw.writeFrame submission is modelled separately by Serveconn.writeFrame. -/
def EndWrite (dfw : DefaultFrameWriter) : DefaultFrameWriter :=
  let length := dfw.wbuf.length - 4
  { dfw with wbuf :=
      ((((dfw.wbuf.set 0 (toByte (length >>> 24))).set 1
          (toByte (length >>> 16))).set 2
          (toByte (length >>> 8))).set 3
          (toByte length)).set 12 (toByte dfw.flags) }

/-- StreamEndWrite (src/framewriter.go:80): if e, set the EndStream flag
first, then EndWrite. -/
def StreamEndWrite (dfw : DefaultFrameWriter) (e : Bool) : DefaultFrameWriter :=
  EndWrite (if e then { dfw with flags := FrameFlag.ToEndStream dfw.flags } else dfw)

/-- One payload append operation on a frame writer. -/
inductive PayloadOp where
  | u8 (v : Nat)
  | u16 (v : Nat)
  | u32 (v : Nat)
  | u64 (v : Nat)
  | bytes (v : List Nat)
deriving Repr, DecidableEq

/-- Apply one payload append to the writer. -/
def applyOp (dfw : DefaultFrameWriter) : PayloadOp → DefaultFrameWriter
  | .u8 v => WriteUint8 dfw v
  | .u16 v => WriteUint16 dfw v
  | .u32 v => WriteUint32 dfw v
  | .u64 v => WriteUint64 dfw v
  | .bytes v => WriteBytes dfw v

/-- Apply a sequence of payload appends, left to right. -/
def applyOps (dfw : DefaultFrameWriter) (ops : List PayloadOp) : DefaultFrameWriter :=
  ops.foldl applyOp dfw

/-- The bytes one payload append contributes to the buffer. -/
def opBytes : PayloadOp → List Nat
  | .u8 v => [toByte v]
  | .u16 v => [toByte (v >>> 8), toByte v]
  | .u32 v => [toByte (v >>> 24), toByte (v >>> 16), toByte (v >>> 8), toByte v]
  | .u64 v => [toByte (v >>> 56), toByte (v >>> 48), toByte (v >>> 40),
      toByte (v >>> 32), toByte (v >>> 24), toByte (v >>> 16),
      toByte (v >>> 8), toByte v]
  | .bytes v => v

/-- The bytes a sequence of payload appends contributes. -/
def payloadBytes : List PayloadOp → List Nat
  | [] => []
  | op :: ops => opBytes op ++ payloadBytes ops

/-- Big-endian interpretation of a byte list. -/
def beDecode (l : List Nat) : Nat := l.foldl (fun acc b => acc * 256 + b) 0

/-- Errors surfaced by the embedded paths (src/conf.go and spec section 7). -/
inductive QErr where
  | rstNonExistingStream
  | writeAfterCloseSelf
  | connAlreadyClosed
  | noNewUUID
  | ctxDone
  | useOfClosedConn
deriving Repr, DecidableEq

/-- Modelled from the spec: per-stream state.  ConnStreams/Stream are not in
src/; section 3 gives a self-closed flag and an admission policy whose
outbound rules are: after self-close, further outbound frames are not
admitted (a duplicate Rst or post-close frame returns false), and an
admitted Rst or EndStream frame self-closes the stream. -/
structure QStream where
  selfClosed : Bool
deriving Repr, DecidableEq

/-- Modelled from the spec: AddOutFrame records an outbound frame; returns
(admitted, updated stream).  Not admitted exactly when already self-closed;
an admitted Rst or EndStream closes the outbound direction. -/
def QStream.AddOutFrame (s : QStream) (_requestID : Nat) (flags : FrameFlag) :
    Bool × QStream :=
  if s.selfClosed then (false, s)
  else (true, { selfClosed := FrameFlag.IsRst flags || FrameFlag.IsStreamEnd flags })

/-- Modelled from the spec: the stream table, a map from request id to
stream state. -/
structure ConnStreams where
  streams : List (Nat × QStream)
deriving Repr, DecidableEq

/-- Modelled from the spec: lookup without create. -/
def ConnStreams.GetStream (cs : ConnStreams) (requestID : Nat)
    (_flags : FrameFlag) : Option QStream :=
  cs.streams.lookup requestID

/-- Modelled from the spec: create a fresh stream if absent (loaded=false),
else return the existing one (loaded=true). -/
def ConnStreams.CreateOrGetStream (cs : ConnStreams) (requestID : Nat)
    (_flags : FrameFlag) : QStream × Bool × ConnStreams :=
  match cs.streams.lookup requestID with
  | some s => (s, true, cs)
  | none =>
    let s : QStream := { selfClosed := false }
    (s, false, { streams := (requestID, s) :: cs.streams })

/-- Store back an updated stream under its id (the Go code mutates the
stream in place through a pointer). -/
def ConnStreams.setStream (cs : ConnStreams) (requestID : Nat) (s : QStream) :
    ConnStreams :=
  { streams := cs.streams.map fun kv => if kv.1 = requestID then (kv.1, s) else kv }

/-- The serveconn state that writeFrame touches: whether the connection
context is cancelled, the stream table, and the transcript of bytes handed
to the underlying bytes writer. -/
structure Serveconn where
  ctxDone : Bool
  cs : ConnStreams
  wire : List Nat
deriving Repr, DecidableEq

/-- writeFrame (src/conf.go:399): fast-fail on cancelled context; under the
write lock consult the stream table (Rst: lookup, missing is an error,
unadmitted is a silent drop; non-Rst non-Push: createOrGet then admission,
unadmitted is ErrWriteAfterCloseSelf; Push: no stream bookkeeping), then
write the buffer to the wire.  The bytes writer is modelled as always
succeeding; the write-error branch (close connection, unwrap net.OpError)
is beyond the claims settled here. -/
def Serveconn.writeFrame (sc : Serveconn) (dfw : DefaultFrameWriter) :
    Serveconn × Option QErr :=
  if sc.ctxDone then (sc, some .ctxDone)
  else
    let flags := dfw.flags
    let requestID := dfw.requestID
    if FrameFlag.IsRst flags then
      match sc.cs.GetStream requestID flags with
      | none => (sc, some .rstNonExistingStream)
      | some s =>
        let (admitted, s1) := s.AddOutFrame requestID flags
        let sc1 := { sc with cs := sc.cs.setStream requestID s1 }
        if admitted then ({ sc1 with wire := sc1.wire ++ dfw.wbuf }, none)
        else (sc1, none)
    else if !(FrameFlag.IsPush flags) then
      let (s, _loaded, cs1) := sc.cs.CreateOrGetStream requestID flags
      let (admitted, s1) := s.AddOutFrame requestID flags
      let sc1 := { sc with cs := cs1.setStream requestID s1 }
      if admitted then ({ sc1 with wire := sc1.wire ++ dfw.wbuf }, none)
      else (sc1, some .writeAfterCloseSelf)
    else ({ sc with wire := sc.wire ++ dfw.wbuf }, none)

/-- An inbound frame as seen by the reader task. -/
structure Frame where
  requestID : Nat
  cmd : Cmd
  flags : FrameFlag
  payload : List Nat
deriving Repr, DecidableEq

/-- FromServer (on *Frame): the FromServer flag bit is set. -/
def Frame.FromServer (f : Frame) : Bool := FrameFlag.IsFromServer f.flags

/-- Modelled from the spec: a pending-response slot, a one-slot mailbox for
the reply frame plus a closed marker (response is not in src/). -/
structure RespSlot where
  frame : Option Frame
  closed : Bool
deriving Repr, DecidableEq

/-- Modelled from the spec: SetResponse delivers the reply into the slot's
one-slot mailbox. -/
def RespSlot.SetResponse (r : RespSlot) (f : Frame) : RespSlot :=
  { r with frame := some f }

/-- Go map delete on an association list. -/
def removeKey (l : List (Nat × RespSlot)) (k : Nat) : List (Nat × RespSlot) :=
  l.filter fun kv => decide (kv.1 ≠ k)

/-- The reader-task state that the pending-response routing in readFrames
touches: the pending-response map, the transcript of frames sent to the
dispatch channel (readFrameCh), and the transcript of mailbox deliveries
(request id paired with the delivered slot). -/
structure ReaderState where
  respes : List (Nat × RespSlot)
  dispatched : List Frame
  delivered : List (Nat × RespSlot)
deriving Repr, DecidableEq

/-- One iteration of the readFrames loop body after a successful ReadFrame
(src/conf.go:352): a FromServer frame whose id has a registered response
slot is deleted from the map and delivered to that slot's mailbox
(continue: never sent to readFrameCh); every other frame goes to the
dispatch channel.  The NonBlock/gate mechanics and cancellation selects
only choose how the dispatch send blocks and are not modelled. -/
def readFramesStep (st : ReaderState) (req : Frame) : ReaderState :=
  if req.FromServer then
    match st.respes.lookup req.requestID with
    | some resp =>
      { st with respes := removeKey st.respes req.requestID,
                delivered := st.delivered ++ [(req.requestID, resp.SetResponse req)] }
    | none => { st with dispatched := st.dispatched ++ [req] }
  else { st with dispatched := st.dispatched ++ [req] }

/-- The request-id allocation loop in writeFirstFrame (src/conf.go:482):
candidate ids come from successive calls to PoorManUUID, modelled as the
sequence uuids 0, uuids 1, ... ; requestID is the current candidate and i
the collision count.  On a collision i is incremented; once i reaches 3
the loop gives up, otherwise the next candidate is drawn. -/
def allocLoop (uuids : Nat → Nat) (respes : List (Nat × RespSlot))
    (requestID : Nat) (i : Nat) : Option Nat :=
  if (respes.lookup requestID).isNone then some requestID
  else if 3 ≤ i + 1 then none
  else allocLoop uuids respes (uuids (i + 1)) (i + 1)
termination_by 3 - i
decreasing_by omega

/-- writeFirstFrame (src/conf.go:466): refuse on an untracked connection;
allocate a request id with at most three PoorManUUID probes against the
pending-response map (ErrNoNewUUID when all collide); insert a fresh
response slot; build and submit the frame (the StartWrite/WriteBytes/
EndWrite submission outcome is the submitErr parameter); on submit error
close and remove the slot.  Returns the updated map and the id or error. -/
def writeFirstFrame (untrack : Bool) (uuids : Nat → Nat)
    (respes : List (Nat × RespSlot)) (submitErr : Option QErr) :
    List (Nat × RespSlot) × Except QErr Nat :=
  if untrack then (respes, .error .connAlreadyClosed)
  else
    match allocLoop uuids respes (uuids 0) 0 with
    | none => (respes, .error .noNewUUID)
    | some requestID =>
      let respes1 := (requestID, ({ frame := none, closed := false } : RespSlot)) :: respes
      match submitErr with
      | some e => (removeKey respes1 requestID, .error e)
      | none => (respes1, .ok requestID)

/-- The connection state that Close / closeUntracked touch: the server
registry's untracked mark, the socket's closed state, the cancellation
token, the ConnectionInfo closed flag and close-notify list (callbacks as
opaque ids), and the transcript of callbacks invoked. -/
structure CloseState where
  untracked : Bool
  rwcClosed : Bool
  ctxCancelled : Bool
  ciClosed : Bool
  closeNotify : List Nat
  invoked : List Nat
deriving Repr, DecidableEq

/-- Modelled from the spec: Server.untrack is not in src/; the first caller
removes the connection from the registry, later callers wait on the
rendezvous channel for that removal to finish.  Sequentialized, every call
returns after the connection is marked untracked. -/
def CloseState.untrack (st : CloseState) : CloseState :=
  { st with untracked := true }

/-- Modelled from the spec: sc.rwc is "usually of type *net.TCPConn"
(src/conf.go:63); closing an already-closed Go TCP connection returns the
"use of closed network connection" error. -/
def CloseState.rwcClose (st : CloseState) : CloseState × Option QErr :=
  if st.rwcClosed then (st, some .useOfClosedConn)
  else ({ st with rwcClosed := true }, none)

/-- closeUntracked (src/conf.go:539): close the socket, returning its error
if any; cancel the context; mark ConnectionInfo closed; snapshot and clear
the close-notify list under the lock; invoke each callback outside it. -/
def CloseState.closeUntracked (st : CloseState) : CloseState × Option QErr :=
  match st.rwcClose with
  | (st1, some e) => (st1, some e)
  | (st1, none) =>
    let st2 := { st1 with ctxCancelled := true, ciClosed := true,
                          closeNotify := [],
                          invoked := st1.invoked ++ st1.closeNotify }
    (st2, none)

/-- Close (src/conf.go:525): take the close-rate limiter (pure pacing, not
modelled), untrack from the server registry (waiting for a concurrent
untracker if there is one), then run closeUntracked.  Note every caller
reaches closeUntracked. -/
def CloseState.close (st : CloseState) : CloseState × Option QErr :=
  (st.untrack).closeUntracked

/-- The 16-byte preamble StartWrite leaves in the buffer. -/
def startWbuf (requestID : Nat) (cmd : Cmd) (flags : FrameFlag) : List Nat :=
  [0, 0, 0, 0,
   toByte (requestID >>> 56), toByte (requestID >>> 48),
   toByte (requestID >>> 40), toByte (requestID >>> 32),
   toByte (requestID >>> 24), toByte (requestID >>> 16),
   toByte (requestID >>> 8), toByte requestID,
   toByte flags,
   toByte (cmd >>> 16), toByte (cmd >>> 8), toByte cmd]

/-! Helper lemmas about the frame writer. -/

theorem applyOp_wbuf (dfw : DefaultFrameWriter) (op : PayloadOp) :
    (applyOp dfw op).wbuf = dfw.wbuf ++ opBytes op := by
  cases op <;> rfl

theorem applyOp_requestID (dfw : DefaultFrameWriter) (op : PayloadOp) :
    (applyOp dfw op).requestID = dfw.requestID := by
  cases op <;> rfl

theorem applyOp_cmd (dfw : DefaultFrameWriter) (op : PayloadOp) :
    (applyOp dfw op).cmd = dfw.cmd := by
  cases op <;> rfl

theorem applyOp_flags (dfw : DefaultFrameWriter) (op : PayloadOp) :
    (applyOp dfw op).flags = dfw.flags := by
  cases op <;> rfl

theorem applyOps_wbuf (dfw : DefaultFrameWriter) (ops : List PayloadOp) :
    (applyOps dfw ops).wbuf = dfw.wbuf ++ payloadBytes ops := by
  induction ops generalizing dfw with
  | nil => simp [applyOps, payloadBytes]
  | cons op ops ih =>
    simp [applyOps, payloadBytes] at *
    rw [ih, applyOp_wbuf, List.append_assoc]

theorem applyOps_flags (dfw : DefaultFrameWriter) (ops : List PayloadOp) :
    (applyOps dfw ops).flags = dfw.flags := by
  induction ops generalizing dfw with
  | nil => rfl
  | cons op ops ih =>
    simp [applyOps] at *
    rw [ih, applyOp_flags]

theorem startWrite_wbuf (dfw : DefaultFrameWriter) (requestID : Nat) (cmd : Cmd)
    (flags : FrameFlag) :
    (StartWrite dfw requestID cmd flags).wbuf = startWbuf requestID cmd flags := rfl

/-- Buffer shape after EndWrite on a writer whose buffer is a StartWrite
preamble followed by payload bytes: the length prefix holds the big-endian
bytes of (payload length + 12) and byte 12 holds the current flags. -/
theorem endWrite_wbuf_shape (w : DefaultFrameWriter) (requestID : Nat) (cmd : Cmd)
    (flags0 : FrameFlag) (p : List Nat)
    (hw : w.wbuf = startWbuf requestID cmd flags0 ++ p) :
    (EndWrite w).wbuf =
      [toByte ((p.length + 12) >>> 24), toByte ((p.length + 12) >>> 16),
       toByte ((p.length + 12) >>> 8), toByte (p.length + 12),
       toByte (requestID >>> 56), toByte (requestID >>> 48),
       toByte (requestID >>> 40), toByte (requestID >>> 32),
       toByte (requestID >>> 24), toByte (requestID >>> 16),
       toByte (requestID >>> 8), toByte requestID,
       toByte w.flags,
       toByte (cmd >>> 16), toByte (cmd >>> 8), toByte cmd] ++ p := by
  simp only [EndWrite]
  rw [hw]
  rfl

theorem beDecode3 (v : Nat) :
    beDecode [toByte (v >>> 16), toByte (v >>> 8), toByte v] = v % 2 ^ 24 := by
  simp only [beDecode, List.foldl, toByte, Nat.shiftRight_eq_div_pow]
  norm_num
  omega

theorem beDecode4 (v : Nat) (h : v < 2 ^ 32) :
    beDecode [toByte (v >>> 24), toByte (v >>> 16), toByte (v >>> 8), toByte v] = v := by
  simp only [beDecode, List.foldl, toByte, Nat.shiftRight_eq_div_pow]
  norm_num
  omega

theorem beDecode8 (v : Nat) (h : v < 2 ^ 64) :
    beDecode [toByte (v >>> 56), toByte (v >>> 48), toByte (v >>> 40),
      toByte (v >>> 32), toByte (v >>> 24), toByte (v >>> 16),
      toByte (v >>> 8), toByte v] = v := by
  simp only [beDecode, List.foldl, toByte, Nat.shiftRight_eq_div_pow]
  norm_num
  omega

/-- C7: for every requestID, cmd and flags, and regardless of the writer's
previous buffer contents, StartWrite leaves the buffer holding exactly 16
bytes: four zero length-placeholder bytes, the 8-byte big-endian requestID,
one flag byte equal to flags, and the 3-byte big-endian cmd, in that
order. -/
theorem c7_startWrite_preamble (dfw : DefaultFrameWriter) (requestID : Nat)
    (cmd : Cmd) (flags : FrameFlag)
    (hid : requestID < 2 ^ 64) (hflags : flags < 256) (hcmd : cmd < 2 ^ 24) :
    (StartWrite dfw requestID cmd flags).wbuf.length = 16 ∧
    (StartWrite dfw requestID cmd flags).wbuf.take 4 = [0, 0, 0, 0] ∧
    beDecode (((StartWrite dfw requestID cmd flags).wbuf.drop 4).take 8) = requestID ∧
    ((StartWrite dfw requestID cmd flags).wbuf)[12]? = some flags ∧
    beDecode ((StartWrite dfw requestID cmd flags).wbuf.drop 13) = cmd := by
  refine ⟨rfl, rfl, ?_, ?_, ?_⟩
  · exact beDecode8 requestID hid
  · show some (toByte flags) = some flags
    rw [toByte, Nat.mod_eq_of_lt hflags]
  · show beDecode [toByte (cmd >>> 16), toByte (cmd >>> 8), toByte cmd] = cmd
    rw [beDecode3, Nat.mod_eq_of_lt hcmd]

/-- C7 witness at requestID 300, cmd 70000, flags 5. -/
theorem c7_startWrite_preamble_witness :
    (StartWrite ⟨[9, 9], 0, 0, 0⟩ 300 70000 5).wbuf.length = 16 ∧
    (StartWrite ⟨[9, 9], 0, 0, 0⟩ 300 70000 5).wbuf.take 4 = [0, 0, 0, 0] ∧
    beDecode (((StartWrite ⟨[9, 9], 0, 0, 0⟩ 300 70000 5).wbuf.drop 4).take 8) = 300 ∧
    ((StartWrite ⟨[9, 9], 0, 0, 0⟩ 300 70000 5).wbuf)[12]? = some 5 ∧
    beDecode ((StartWrite ⟨[9, 9], 0, 0, 0⟩ 300 70000 5).wbuf.drop 13) = 70000 :=
  c7_startWrite_preamble ⟨[9, 9], 0, 0, 0⟩ 300 70000 5 (by decide) (by decide) (by decide)

/-- C10: StartWrite encodes only the low 24 bits of cmd into the 3-byte
command field: bytes 13-15 are the big-endian encoding of cmd mod 2^24 for
every cmd, so high bits are silently discarded. -/
theorem c10_cmd_truncation (dfw : DefaultFrameWriter) (requestID : Nat)
    (cmd : Cmd) (flags : FrameFlag) :
    (StartWrite dfw requestID cmd flags).wbuf.drop 13 =
      [toByte ((cmd % 2 ^ 24) >>> 16), toByte ((cmd % 2 ^ 24) >>> 8),
       toByte (cmd % 2 ^ 24)] ∧
    beDecode ((StartWrite dfw requestID cmd flags).wbuf.drop 13) = cmd % 2 ^ 24 := by
  constructor
  · show [toByte (cmd >>> 16), toByte (cmd >>> 8), toByte cmd] = _
    simp only [toByte, Nat.shiftRight_eq_div_pow, List.cons.injEq, and_true]
    norm_num
    omega
  · show beDecode [toByte (cmd >>> 16), toByte (cmd >>> 8), toByte cmd] = cmd % 2 ^ 24
    exact beDecode3 cmd

/-- C9: EndWrite modifies only byte indices 0-3 and 12 of the buffer: the
buffer length, every other byte, and the writer's requestID, cmd and flags
fields are unchanged. -/
theorem c9_endWrite_frame_effect (dfw : DefaultFrameWriter) :
    (EndWrite dfw).requestID = dfw.requestID ∧
    (EndWrite dfw).cmd = dfw.cmd ∧
    (EndWrite dfw).flags = dfw.flags ∧
    (EndWrite dfw).wbuf.length = dfw.wbuf.length ∧
    ∀ i : Nat, i ∉ ([0, 1, 2, 3, 12] : List Nat) →
      ((EndWrite dfw).wbuf)[i]? = (dfw.wbuf)[i]? := by
  refine ⟨rfl, rfl, rfl, by simp [EndWrite], ?_⟩
  intro i hi
  simp only [List.mem_cons, List.not_mem_nil, or_false, not_or] at hi
  obtain ⟨h0, h1, h2, h3, h12⟩ := hi
  simp only [EndWrite]
  rw [List.getElem?_set_ne (Ne.symm h12), List.getElem?_set_ne (Ne.symm h3),
    List.getElem?_set_ne (Ne.symm h2), List.getElem?_set_ne (Ne.symm h1),
    List.getElem?_set_ne (Ne.symm h0)]

/-- Length of the buffer after EndWrite on a StartWrite-plus-payload
buffer. -/
theorem endWrite_length_of_shape (w : DefaultFrameWriter) (requestID : Nat)
    (cmd : Cmd) (flags0 : FrameFlag) (p : List Nat)
    (hw : w.wbuf = startWbuf requestID cmd flags0 ++ p) :
    (EndWrite w).wbuf.length = 16 + p.length := by
  rw [endWrite_wbuf_shape w requestID cmd flags0 p hw]
  simp
  omega

/-- The first four buffer bytes after EndWrite on a StartWrite-plus-payload
buffer. -/
theorem endWrite_take4 (w : DefaultFrameWriter) (requestID : Nat) (cmd : Cmd)
    (flags0 : FrameFlag) (p : List Nat)
    (hw : w.wbuf = startWbuf requestID cmd flags0 ++ p) :
    (EndWrite w).wbuf.take 4 =
      [toByte ((p.length + 12) >>> 24), toByte ((p.length + 12) >>> 16),
       toByte ((p.length + 12) >>> 8), toByte (p.length + 12)] := by
  rw [endWrite_wbuf_shape w requestID cmd flags0 p hw]
  rfl

/-- The flag byte (index 12) after EndWrite on a StartWrite-plus-payload
buffer is the writer's flags field at the time EndWrite runs. -/
theorem endWrite_flagByte (w : DefaultFrameWriter) (requestID : Nat) (cmd : Cmd)
    (flags0 : FrameFlag) (p : List Nat)
    (hw : w.wbuf = startWbuf requestID cmd flags0 ++ p) :
    ((EndWrite w).wbuf)[12]? = some (toByte w.flags) := by
  rw [endWrite_wbuf_shape w requestID cmd flags0 p hw]
  rfl

/-- C1: after StartWrite and any sequence of payload appends, EndWrite
leaves the first four buffer bytes holding the big-endian encoding of
len(buffer) - 4 (stated for lengths that fit the 4-byte field). -/
theorem c1_endWrite_length_field (dfw : DefaultFrameWriter) (requestID : Nat)
    (cmd : Cmd) (flags : FrameFlag) (ops : List PayloadOp)
    (h : (applyOps (StartWrite dfw requestID cmd flags) ops).wbuf.length - 4 < 2 ^ 32) :
    beDecode ((EndWrite (applyOps (StartWrite dfw requestID cmd flags) ops)).wbuf.take 4) =
      (EndWrite (applyOps (StartWrite dfw requestID cmd flags) ops)).wbuf.length - 4 := by
  set w := applyOps (StartWrite dfw requestID cmd flags) ops with hwdef
  have hw : w.wbuf = startWbuf requestID cmd flags ++ payloadBytes ops := by
    rw [hwdef, applyOps_wbuf, startWrite_wbuf]
  have hlen : w.wbuf.length = 16 + (payloadBytes ops).length := by
    rw [hw]
    simp [startWbuf]
    omega
  have hfit : (payloadBytes ops).length + 12 < 2 ^ 32 := by
    rw [hlen] at h; omega
  rw [endWrite_take4 w requestID cmd flags (payloadBytes ops) hw,
    endWrite_length_of_shape w requestID cmd flags (payloadBytes ops) hw,
    beDecode4 ((payloadBytes ops).length + 12) hfit]
  omega

/-- C1 witness: a concrete frame with a 3-byte payload has length field
15. -/
theorem c1_endWrite_length_field_witness :
    (applyOps (StartWrite ⟨[], 0, 0, 0⟩ 2 3 0) [.bytes [7, 8, 9]]).wbuf.length - 4 < 2 ^ 32 ∧
    beDecode ((EndWrite (applyOps (StartWrite ⟨[], 0, 0, 0⟩ 2 3 0) [.bytes [7, 8, 9]])).wbuf.take 4) =
      (EndWrite (applyOps (StartWrite ⟨[], 0, 0, 0⟩ 2 3 0) [.bytes [7, 8, 9]])).wbuf.length - 4 :=
  ⟨by decide, c1_endWrite_length_field ⟨[], 0, 0, 0⟩ 2 3 0 [.bytes [7, 8, 9]] (by decide)⟩

/-- C8: after EndWrite the flag byte at offset 12 equals the writer's flags
field at the time EndWrite runs, even if flags were changed after
StartWrite; StreamEndWrite true sets the EndStream bit before finishing, so
the emitted frame carries EndStream, while StreamEndWrite false behaves
exactly like EndWrite. -/
theorem c8_flag_byte (dfw : DefaultFrameWriter) (requestID : Nat) (cmd : Cmd)
    (flags : FrameFlag) (ops : List PayloadOp) (f1 : FrameFlag)
    (hf1 : f1 < 256) (hflags : flags < 256) :
    ((EndWrite { applyOps (StartWrite dfw requestID cmd flags) ops with flags := f1 }).wbuf)[12]? =
      some f1 ∧
    StreamEndWrite (applyOps (StartWrite dfw requestID cmd flags) ops) false =
      EndWrite (applyOps (StartWrite dfw requestID cmd flags) ops) ∧
    ((StreamEndWrite (applyOps (StartWrite dfw requestID cmd flags) ops) true).wbuf)[12]? =
      some (FrameFlag.ToEndStream flags) ∧
    FrameFlag.IsStreamEnd (FrameFlag.ToEndStream flags) = true := by
  set w := applyOps (StartWrite dfw requestID cmd flags) ops with hwdef
  have hw : w.wbuf = startWbuf requestID cmd flags ++ payloadBytes ops := by
    rw [hwdef, applyOps_wbuf, startWrite_wbuf]
  have hwf : w.flags = flags := by
    rw [hwdef, applyOps_flags]
    rfl
  have h256 : (2 : Nat) ^ 8 = 256 := by norm_num
  refine ⟨?_, rfl, ?_, ?_⟩
  · rw [endWrite_flagByte { w with flags := f1 } requestID cmd flags (payloadBytes ops) hw]
    show some (toByte f1) = some f1
    rw [toByte, Nat.mod_eq_of_lt hf1]
  · show ((EndWrite { w with flags := FrameFlag.ToEndStream w.flags }).wbuf)[12]? = _
    rw [endWrite_flagByte { w with flags := FrameFlag.ToEndStream w.flags } requestID cmd flags
      (payloadBytes ops) hw]
    show some (toByte (FrameFlag.ToEndStream w.flags)) = _
    have hor : FrameFlag.ToEndStream flags < 256 := by
      rw [← h256]
      exact Nat.or_lt_two_pow (by rw [h256]; exact hflags) (by decide)
    rw [hwf, toByte, Nat.mod_eq_of_lt hor]
  · simp only [FrameFlag.IsStreamEnd, FrameFlag.ToEndStream, Nat.testBit_or]
    have h2 : Nat.testBit StreamEndFlag 1 = true := by decide
    rw [h2, Bool.or_true]

/-- C8 witness at flags 1, payload one u16 append, flags overridden to 9. -/
theorem c8_flag_byte_witness :
    ((EndWrite { applyOps (StartWrite ⟨[], 0, 0, 0⟩ 4 5 1) [.u16 700] with flags := 9 }).wbuf)[12]? =
      some 9 ∧
    StreamEndWrite (applyOps (StartWrite ⟨[], 0, 0, 0⟩ 4 5 1) [.u16 700]) false =
      EndWrite (applyOps (StartWrite ⟨[], 0, 0, 0⟩ 4 5 1) [.u16 700]) ∧
    ((StreamEndWrite (applyOps (StartWrite ⟨[], 0, 0, 0⟩ 4 5 1) [.u16 700]) true).wbuf)[12]? =
      some (FrameFlag.ToEndStream 1) ∧
    FrameFlag.IsStreamEnd (FrameFlag.ToEndStream 1) = true :=
  c8_flag_byte ⟨[], 0, 0, 0⟩ 4 5 1 [.u16 700] 9 (by decide) (by decide)

/-- C9 witness: at index 5 of a concrete post-StartWrite buffer. -/
theorem c9_endWrite_frame_effect_witness :
    ((EndWrite (StartWrite ⟨[], 0, 0, 0⟩ 7 9 1)).wbuf)[5]? =
      ((StartWrite ⟨[], 0, 0, 0⟩ 7 9 1).wbuf)[5]? :=
  (c9_endWrite_frame_effect (StartWrite ⟨[], 0, 0, 0⟩ 7 9 1)).2.2.2.2 5 (by decide)

/-- C2: for an outbound Rst frame, writeFrame looks up the stream: missing
stream yields ErrRstNonExistingStream; an existing stream whose AddOutFrame
admission returns false is dropped silently — success, no bytes written. -/
theorem c2_writeFrame_rst (sc : Serveconn) (dfw : DefaultFrameWriter)
    (hctx : sc.ctxDone = false) (hrst : FrameFlag.IsRst dfw.flags = true) :
    (sc.cs.GetStream dfw.requestID dfw.flags = none →
      Serveconn.writeFrame sc dfw = (sc, some QErr.rstNonExistingStream)) ∧
    (∀ s : QStream, sc.cs.GetStream dfw.requestID dfw.flags = some s →
      (s.AddOutFrame dfw.requestID dfw.flags).1 = false →
      (Serveconn.writeFrame sc dfw).2 = none ∧
      (Serveconn.writeFrame sc dfw).1.wire = sc.wire) := by
  constructor
  · intro hnone
    simp [Serveconn.writeFrame, hctx, hrst, hnone]
  · intro s hs hadm
    rcases hAdd : s.AddOutFrame dfw.requestID dfw.flags with ⟨adm, s1⟩
    rw [hAdd] at hadm
    simp at hadm
    subst hadm
    simp [Serveconn.writeFrame, hctx, hrst, hs, hAdd]

/-- C2 witness: a second Rst against an already self-closed stream is
dropped: success and no wire bytes. -/
theorem c2_writeFrame_rst_witness :
    (Serveconn.writeFrame ⟨false, ⟨[(1, ⟨true⟩)]⟩, []⟩ ⟨[9], 1, 0, 4⟩).2 = none ∧
    (Serveconn.writeFrame ⟨false, ⟨[(1, ⟨true⟩)]⟩, []⟩ ⟨[9], 1, 0, 4⟩).1.wire = [] :=
  (c2_writeFrame_rst ⟨false, ⟨[(1, ⟨true⟩)]⟩, []⟩ ⟨[9], 1, 0, 4⟩ (by decide)
    (by decide)).2 ⟨true⟩ (by decide) (by decide)

/-- C3: for an outbound non-Rst frame, Push skips all stream-table
bookkeeping; otherwise writeFrame calls CreateOrGetStream then AddOutFrame,
and a refused admission returns ErrWriteAfterCloseSelf with no bytes
written. -/
theorem c3_writeFrame_nonRst (sc : Serveconn) (dfw : DefaultFrameWriter)
    (hctx : sc.ctxDone = false) (hrst : FrameFlag.IsRst dfw.flags = false) :
    (FrameFlag.IsPush dfw.flags = true →
      Serveconn.writeFrame sc dfw = ({ sc with wire := sc.wire ++ dfw.wbuf }, none)) ∧
    (FrameFlag.IsPush dfw.flags = false →
      (((sc.cs.CreateOrGetStream dfw.requestID dfw.flags).1.AddOutFrame
          dfw.requestID dfw.flags).1 = false →
        (Serveconn.writeFrame sc dfw).2 = some QErr.writeAfterCloseSelf ∧
        (Serveconn.writeFrame sc dfw).1.wire = sc.wire)) := by
  constructor
  · intro hpush
    simp [Serveconn.writeFrame, hctx, hrst, hpush]
  · intro hpush hadm
    rcases hCG : sc.cs.CreateOrGetStream dfw.requestID dfw.flags with ⟨s, loaded, cs1⟩
    simp only [hCG] at hadm
    rcases hAdd : s.AddOutFrame dfw.requestID dfw.flags with ⟨adm, s1⟩
    rw [hAdd] at hadm
    simp at hadm
    subst hadm
    simp [Serveconn.writeFrame, hctx, hrst, hpush, hCG, hAdd]

/-- C3 witness: a plain frame on a self-closed stream is refused with
ErrWriteAfterCloseSelf and nothing reaches the wire. -/
theorem c3_writeFrame_nonRst_witness :
    (Serveconn.writeFrame ⟨false, ⟨[(2, ⟨true⟩)]⟩, [5]⟩ ⟨[1, 2], 2, 0, 0⟩).2 =
      some QErr.writeAfterCloseSelf ∧
    (Serveconn.writeFrame ⟨false, ⟨[(2, ⟨true⟩)]⟩, [5]⟩ ⟨[1, 2], 2, 0, 0⟩).1.wire = [5] :=
  (c3_writeFrame_nonRst ⟨false, ⟨[(2, ⟨true⟩)]⟩, [5]⟩ ⟨[1, 2], 2, 0, 0⟩ (by decide)
    (by decide)).2 (by decide) (by decide)

/-- C5: when all three request-id candidates drawn by the allocation loop
collide with ids already registered in the pending-response map,
writeFirstFrame returns ErrNoNewUUID and the map is unchanged (no response
slot is added). -/
theorem c5_noNewUUID (uuids : Nat → Nat) (respes : List (Nat × RespSlot))
    (submitErr : Option QErr)
    (h0 : (respes.lookup (uuids 0)).isSome = true)
    (h1 : (respes.lookup (uuids 1)).isSome = true)
    (h2 : (respes.lookup (uuids 2)).isSome = true) :
    writeFirstFrame false uuids respes submitErr = (respes, .error QErr.noNewUUID) := by
  obtain ⟨v0, hv0⟩ := Option.isSome_iff_exists.mp h0
  obtain ⟨v1, hv1⟩ := Option.isSome_iff_exists.mp h1
  obtain ⟨v2, hv2⟩ := Option.isSome_iff_exists.mp h2
  have ha : allocLoop uuids respes (uuids 0) 0 = none := by
    unfold allocLoop
    simp only [hv0, Option.isNone_some, Bool.false_eq_true, if_false]
    norm_num
    unfold allocLoop
    simp only [hv1, Option.isNone_some, Bool.false_eq_true, if_false]
    norm_num
    unfold allocLoop
    simp [hv2]
  simp [writeFirstFrame, ha]

/-- C5 witness: a degenerate uuid source that always returns 5 collides
three times against a map holding 5. -/
theorem c5_noNewUUID_witness :
    writeFirstFrame false (fun _ => 5) [(5, ⟨none, false⟩)] none =
      ([(5, ⟨none, false⟩)], .error QErr.noNewUUID) :=
  c5_noNewUUID (fun _ => 5) [(5, ⟨none, false⟩)] none (by decide) (by decide) (by decide)

/-- C6: an inbound FromServer frame whose request id has a registered
response slot is removed from the pending-response map and delivered to
that slot's mailbox, and is never sent to the dispatch channel. -/
theorem c6_fromServer_routing (st : ReaderState) (req : Frame) (resp : RespSlot)
    (hfs : req.FromServer = true)
    (hlk : st.respes.lookup req.requestID = some resp) :
    readFramesStep st req =
      { respes := removeKey st.respes req.requestID,
        dispatched := st.dispatched,
        delivered := st.delivered ++ [(req.requestID, resp.SetResponse req)] } := by
  simp [readFramesStep, hfs, hlk]

/-- C6 witness: a concrete FromServer frame for id 7 is routed to the slot
registered under 7 and the dispatch transcript stays empty. -/
theorem c6_fromServer_routing_witness :
    readFramesStep ⟨[(7, ⟨none, false⟩)], [], []⟩ ⟨7, 0, 16, []⟩ =
      ⟨[], [], [(7, ⟨some ⟨7, 0, 16, []⟩, false⟩)]⟩ :=
  c6_fromServer_routing ⟨[(7, ⟨none, false⟩)], [], []⟩ ⟨7, 0, 16, []⟩ ⟨none, false⟩
    (by decide) (by decide)

/-- C4 counterexample: Close is not error-free on repeated calls: from a
fresh connection, a second sequential Close returns the socket's
already-closed error (every caller re-runs closeUntracked, whose first step
rwc.Close fails once the socket is closed), refuting "every call returns
without error". -/
theorem c4_close_counterexample :
    (CloseState.close (CloseState.close ⟨false, false, false, false, [0], []⟩).1).2 =
      some QErr.useOfClosedConn := by
  decide

/-- C4 amended: only the first Close performs the teardown and the
close-notify callbacks run exactly once; the first call returns without
error, but any later Close returns the already-closed socket error and
invokes no further callbacks. -/
theorem c4_close_amended (st : CloseState) (h : st.rwcClosed = false) :
    (st.close).2 = none ∧
    (st.close).1.invoked = st.invoked ++ st.closeNotify ∧
    (st.close).1.closeNotify = [] ∧
    ((st.close).1.close).2 = some QErr.useOfClosedConn ∧
    ((st.close).1.close).1.invoked = st.invoked ++ st.closeNotify := by
  simp [CloseState.close, CloseState.untrack, CloseState.closeUntracked,
    CloseState.rwcClose, h]

/-- C4 amended witness: one registered callback runs exactly once across
two sequential Close calls; the first returns no error, the second the
already-closed error. -/
theorem c4_close_amended_witness :
    (CloseState.close ⟨false, false, false, false, [0], []⟩).2 = none ∧
    (CloseState.close ⟨false, false, false, false, [0], []⟩).1.invoked = [0] ∧
    (CloseState.close ⟨false, false, false, false, [0], []⟩).1.closeNotify = [] ∧
    ((CloseState.close ⟨false, false, false, false, [0], []⟩).1.close).2 =
      some QErr.useOfClosedConn ∧
    ((CloseState.close ⟨false, false, false, false, [0], []⟩).1.close).1.invoked = [0] :=
  c4_close_amended ⟨false, false, false, false, [0], []⟩ rfl

end Qrpc
